import Mathlib

/-!
Verification of the zeroquant strategy-execution and backtesting engine
against its natural-language specification.

The Rust sources are shallowly embedded: `rust_decimal::Decimal` values are
modelled as rationals (`ℚ`), fallible Rust functions return `Except`/`Option`,
and handler control flow is embedded as pure functions over explicit inputs.
-/

namespace ZeroQuant

/-! ## ExitConfig (src/crates/trader-strategy/src/strategies/common/exit_config.rs) -/

/-- Embedding of `ExitConfig` from `exit_config.rs`. `Decimal` fields are
modelled as `ℚ`. -/
structure ExitConfig where
  stop_loss_enabled : Bool
  stop_loss_pct : ℚ
  take_profit_enabled : Bool
  take_profit_pct : ℚ
  trailing_stop_enabled : Bool
  trailing_trigger_pct : ℚ
  trailing_stop_pct : ℚ
  exit_on_opposite_signal : Bool
  deriving Repr, DecidableEq

namespace ExitConfig

/-- `impl Default for ExitConfig` (built from the `default_*` helper
functions in the source). -/
def default : ExitConfig :=
  { stop_loss_enabled := true
    stop_loss_pct := 2
    take_profit_enabled := true
    take_profit_pct := 4
    trailing_stop_enabled := false
    trailing_trigger_pct := 2
    trailing_stop_pct := 1
    exit_on_opposite_signal := true }

/-- `ExitConfig::stop_loss` — returns the stop-loss threshold only when
enabled. -/
def stop_loss (c : ExitConfig) : Option ℚ :=
  if c.stop_loss_enabled then some c.stop_loss_pct else none

/-- `ExitConfig::take_profit` — returns the take-profit threshold only when
enabled. -/
def take_profit (c : ExitConfig) : Option ℚ :=
  if c.take_profit_enabled then some c.take_profit_pct else none

/-- `ExitConfig::trailing_stop` — returns the (trigger, stop) pair only when
enabled. -/
def trailing_stop (c : ExitConfig) : Option (ℚ × ℚ) :=
  if c.trailing_stop_enabled then some (c.trailing_trigger_pct, c.trailing_stop_pct) else none

/-- `ExitConfig::for_day_trading` preset. -/
def for_day_trading : ExitConfig :=
  { stop_loss_enabled := true
    stop_loss_pct := 2
    take_profit_enabled := true
    take_profit_pct := 4
    trailing_stop_enabled := false
    trailing_trigger_pct := 2
    trailing_stop_pct := 1
    exit_on_opposite_signal := true }

/-- `ExitConfig::for_mean_reversion` preset. -/
def for_mean_reversion : ExitConfig :=
  { stop_loss_enabled := true
    stop_loss_pct := 3
    take_profit_enabled := true
    take_profit_pct := 6
    trailing_stop_enabled := false
    trailing_trigger_pct := 3
    trailing_stop_pct := 3/2
    exit_on_opposite_signal := true }

/-- `ExitConfig::for_grid_trading` preset. -/
def for_grid_trading : ExitConfig :=
  { stop_loss_enabled := false
    stop_loss_pct := 10
    take_profit_enabled := true
    take_profit_pct := 3
    trailing_stop_enabled := false
    trailing_trigger_pct := 2
    trailing_stop_pct := 1
    exit_on_opposite_signal := false }

/-- `ExitConfig::for_rebalancing` preset. -/
def for_rebalancing : ExitConfig :=
  { stop_loss_enabled := false
    stop_loss_pct := 15
    take_profit_enabled := false
    take_profit_pct := 30
    trailing_stop_enabled := false
    trailing_trigger_pct := 5
    trailing_stop_pct := 2
    exit_on_opposite_signal := false }

/-- `ExitConfig::for_leverage` preset. -/
def for_leverage : ExitConfig :=
  { stop_loss_enabled := true
    stop_loss_pct := 5
    take_profit_enabled := true
    take_profit_pct := 10
    trailing_stop_enabled := true
    trailing_trigger_pct := 5
    trailing_stop_pct := 2
    exit_on_opposite_signal := true }

/-- `ExitConfig::for_momentum` preset. -/
def for_momentum : ExitConfig :=
  { stop_loss_enabled := true
    stop_loss_pct := 5
    take_profit_enabled := true
    take_profit_pct := 15
    trailing_stop_enabled := true
    trailing_trigger_pct := 8
    trailing_stop_pct := 3
    exit_on_opposite_signal := true }

end ExitConfig

/-! ## Strategy factory (src/crates/trader-api/src/routes/strategies.rs) -/

/-- The concrete strategy implementation types that
`create_strategy_instance` can construct, one constructor per Rust struct. -/
inductive StrategyKind where
  | RsiStrategy | GridStrategy | BollingerStrategy | VolatilityBreakoutStrategy
  | MagicSplitStrategy | SmaStrategy | CandlePatternStrategy | InfinityBotStrategy
  | MarketInterestDayStrategy | SimplePowerStrategy | HaaStrategy | XaaStrategy
  | StockRotationStrategy | AllWeatherStrategy | SnowStrategy | MarketCapTopStrategy
  | BaaStrategy | SectorMomentumStrategy | DualMomentumStrategy | SmallCapQuantStrategy
  | PensionBotStrategy | SectorVbStrategy | KospiBothSideStrategy | KosdaqFireRainStrategy
  | Us3xLeverageStrategy | StockGuganStrategy
  deriving Repr, DecidableEq

/-- Embedding of `create_strategy_instance`: the `match` on the
`strategy_type` string, with `|`-alternatives rendered as disjunctions. The
produced boxed instance is abstracted to its implementation type. -/
def create_strategy_instance (s : String) : Except String StrategyKind :=
  if s = "rsi" ∨ s = "rsi_mean_reversion" then .ok .RsiStrategy
  else if s = "grid" ∨ s = "grid_trading" then .ok .GridStrategy
  else if s = "bollinger" ∨ s = "bollinger_bands" then .ok .BollingerStrategy
  else if s = "volatility_breakout" ∨ s = "volatility" then .ok .VolatilityBreakoutStrategy
  else if s = "magic_split" ∨ s = "split" then .ok .MagicSplitStrategy
  else if s = "sma" ∨ s = "sma_crossover" ∨ s = "ma_crossover" then .ok .SmaStrategy
  else if s = "candle_pattern" then .ok .CandlePatternStrategy
  else if s = "infinity_bot" then .ok .InfinityBotStrategy
  else if s = "market_interest_day" then .ok .MarketInterestDayStrategy
  else if s = "simple_power" then .ok .SimplePowerStrategy
  else if s = "haa" then .ok .HaaStrategy
  else if s = "xaa" then .ok .XaaStrategy
  else if s = "stock_rotation" ∨ s = "rotation" then .ok .StockRotationStrategy
  else if s = "all_weather" ∨ s = "all_weather_us" ∨ s = "all_weather_kr" then
    .ok .AllWeatherStrategy
  else if s = "snow" ∨ s = "snow_us" ∨ s = "snow_kr" then .ok .SnowStrategy
  else if s = "market_cap_top" then .ok .MarketCapTopStrategy
  else if s = "baa" then .ok .BaaStrategy
  else if s = "sector_momentum" then .ok .SectorMomentumStrategy
  else if s = "dual_momentum" then .ok .DualMomentumStrategy
  else if s = "small_cap_quant" then .ok .SmallCapQuantStrategy
  else if s = "pension_bot" ∨ s = "pension" then .ok .PensionBotStrategy
  else if s = "sector_vb" ∨ s = "sector_volatility" then .ok .SectorVbStrategy
  else if s = "kospi_bothside" ∨ s = "kospi_both" then .ok .KospiBothSideStrategy
  else if s = "kosdaq_fire_rain" ∨ s = "kosdaq_surge" then .ok .KosdaqFireRainStrategy
  else if s = "us_3x_leverage" ∨ s = "us_leverage" then .ok .Us3xLeverageStrategy
  else if s = "stock_gugan" ∨ s = "gugan" then .ok .StockGuganStrategy
  else .error ("Unknown strategy type: " ++ s)

/-- All strategy-type strings handled by `create_strategy_instance`, in match
order. -/
def handledStrategyTypes : List String :=
  ["rsi", "rsi_mean_reversion", "grid", "grid_trading", "bollinger",
   "bollinger_bands", "volatility_breakout", "volatility", "magic_split",
   "split", "sma", "sma_crossover", "ma_crossover", "candle_pattern",
   "infinity_bot", "market_interest_day", "simple_power", "haa", "xaa",
   "stock_rotation", "rotation", "all_weather", "all_weather_us",
   "all_weather_kr", "snow", "snow_us", "snow_kr", "market_cap_top", "baa",
   "sector_momentum", "dual_momentum", "small_cap_quant", "pension_bot",
   "pension", "sector_vb", "sector_volatility", "kospi_bothside",
   "kospi_both", "kosdaq_fire_rain", "kosdaq_surge", "us_3x_leverage",
   "us_leverage", "stock_gugan", "gugan"]

/-- `get_strategy_default_name` from `strategies.rs`: default display name per
strategy type. -/
def get_strategy_default_name (s : String) : String :=
  if s = "rsi" ∨ s = "rsi_mean_reversion" then "RSI 평균회귀"
  else if s = "grid" ∨ s = "grid_trading" then "그리드 트레이딩"
  else if s = "bollinger" ∨ s = "bollinger_bands" then "볼린저 밴드"
  else if s = "volatility_breakout" ∨ s = "volatility" then "변동성 돌파"
  else if s = "magic_split" ∨ s = "split" then "Magic Split"
  else if s = "sma" ∨ s = "sma_crossover" ∨ s = "ma_crossover" then "이동평균 크로스오버"
  else if s = "candle_pattern" then "캔들 패턴"
  else if s = "infinity_bot" then "무한매수"
  else if s = "market_interest_day" then "단타 시장관심"
  else if s = "simple_power" then "Simple Power"
  else if s = "haa" then "HAA"
  else if s = "xaa" then "XAA"
  else if s = "stock_rotation" ∨ s = "rotation" then "종목 갈아타기"
  else if s = "all_weather" ∨ s = "all_weather_us" ∨ s = "all_weather_kr" then "올웨더"
  else if s = "snow" ∨ s = "snow_us" ∨ s = "snow_kr" then "스노우"
  else if s = "market_cap_top" then "시총 TOP"
  else if s = "baa" then "BAA"
  else if s = "sector_momentum" then "섹터 모멘텀"
  else if s = "dual_momentum" then "듀얼 모멘텀"
  else if s = "small_cap_quant" then "소형주 퀀트"
  else if s = "pension_bot" ∨ s = "pension" then "연금 자동화"
  else if s = "sector_vb" ∨ s = "sector_volatility" then "섹터 변동성 돌파"
  else if s = "kospi_bothside" ∨ s = "kospi_both" then "코스피 양방향"
  else if s = "kosdaq_fire_rain" ∨ s = "kosdaq_surge" then "코스닥 급등주"
  else if s = "us_3x_leverage" ∨ s = "us_leverage" then "미국 3배 레버리지"
  else if s = "stock_gugan" ∨ s = "gugan" then "주식 구간 매매"
  else "Unknown Strategy"

/-! ## EngineError → HTTP response (src/crates/trader-api/src/routes/strategies.rs) -/

/-- Embedding of `trader_strategy::EngineError`: seven variants, each carrying
a message string. -/
inductive EngineError where
  | StrategyNotFound (msg : String)
  | StrategyAlreadyExists (msg : String)
  | InitializationFailed (msg : String)
  | NotRunning (msg : String)
  | AlreadyRunning (msg : String)
  | ChannelError (msg : String)
  | InternalError (msg : String)
  deriving Repr, DecidableEq

/-- The variant tag of an `EngineError`, ignoring the message payload. -/
def EngineError.kindTag : EngineError → Fin 7
  | .StrategyNotFound _ => 0
  | .StrategyAlreadyExists _ => 1
  | .InitializationFailed _ => 2
  | .NotRunning _ => 3
  | .AlreadyRunning _ => 4
  | .ChannelError _ => 5
  | .InternalError _ => 6

/-- Embedding of `engine_error_to_response`: maps an `EngineError` to the
HTTP status (as its numeric value) and the stable error-code string. -/
def engine_error_to_response (e : EngineError) : Nat × String :=
  match e with
  | .StrategyNotFound _ => (404, "STRATEGY_NOT_FOUND")
  | .StrategyAlreadyExists _ => (409, "STRATEGY_EXISTS")
  | .InitializationFailed _ => (500, "INIT_FAILED")
  | .NotRunning _ => (400, "NOT_RUNNING")
  | .AlreadyRunning _ => (400, "ALREADY_RUNNING")
  | .ChannelError _ => (500, "CHANNEL_ERROR")
  | .InternalError _ => (500, "INTERNAL_ERROR")

/-! ## Route handlers (src/crates/trader-api/src/routes/strategies.rs)

Each handler is embedded as a pure function whose arguments stand for the
results of the external calls it makes, in program order. The outcome records
the in-memory engine mutations issued, the `tracing::warn` logs emitted, the
websocket broadcasts, and the HTTP response. String messages are embedded
with the surrounding quote characters elided. -/

/-- The `(name, running)` projection of `trader_strategy::StrategyStatus`
that the route handlers consume. -/
structure StrategyStatus where
  name : String
  running : Bool
  deriving Repr, DecidableEq

/-- Embedding of the websocket `StrategyUpdateData` lifecycle-event payload
(the optional JSON `data` payload and the timestamp are elided). -/
structure StrategyUpdateData where
  strategy_id : String
  name : String
  running : Bool
  event : String
  deriving Repr, DecidableEq

/-- Embedding of `StrategyActionResponse`. -/
structure StrategyActionResponse where
  success : Bool
  strategy_id : String
  action : String
  message : String
  deriving Repr, DecidableEq

/-- Embedding of `CreateStrategyResponse`. -/
structure CreateStrategyResponse where
  success : Bool
  strategy_id : String
  name : String
  message : String
  deriving Repr, DecidableEq

/-- Embedding of `CloneStrategyResponse`. -/
structure CloneStrategyResponse where
  success : Bool
  source_id : String
  new_id : String
  new_name : String
  message : String
  deriving Repr, DecidableEq

/-- A mutating engine call issued by a handler. Recording these in order
makes "the in-memory mutation is not rolled back" expressible: the call list
contains the mutation and no compensating call. -/
inductive EngineOp where
  | registerStrategy (id : String)
  | unregisterStrategy (id : String)
  | startStrategy (id : String)
  | stopStrategy (id : String)
  | updateStrategyConfig (id : String)
  deriving Repr, DecidableEq

/-- Outcome of one route-handler invocation. -/
structure HandlerOutcome (ρ : Type) where
  engineCalls : List EngineOp
  warnLogs : Nat
  broadcasts : List StrategyUpdateData
  response : Except (Nat × String) ρ

/-- Embedding of the `delete_strategy` handler: name lookup (falling back to
the id), engine `unregister_strategy` (an error becomes the HTTP error
response), a best-effort DB delete whose failure is only warned about, then
the "deleted" broadcast and a success response. -/
def delete_strategy (id : String)
    (status_result : Except EngineError StrategyStatus)
    (unregister_result : Except EngineError Unit) (db_pool : Bool)
    (db_delete_result : Except String Unit) :
    HandlerOutcome StrategyActionResponse :=
  let strategy_name :=
    match status_result with
    | .ok s => s.name
    | .error _ => id
  match unregister_result with
  | .error e =>
      { engineCalls := [.unregisterStrategy id], warnLogs := 0,
        broadcasts := [], response := .error (engine_error_to_response e) }
  | .ok _ =>
      let warns :=
        if db_pool then
          match db_delete_result with
          | .error _ => 1
          | .ok _ => 0
        else 0
      { engineCalls := [.unregisterStrategy id]
        warnLogs := warns
        broadcasts := [{ strategy_id := id, name := strategy_name,
                         running := false, event := "deleted" }]
        response := .ok { success := true, strategy_id := id,
                          action := "delete",
                          message := "Strategy " ++ id ++ " deleted successfully" } }

/-- Embedding of the `start_strategy` handler. -/
def start_strategy (id : String)
    (status_result : Except EngineError StrategyStatus)
    (start_result : Except EngineError Unit) :
    HandlerOutcome StrategyActionResponse :=
  let strategy_name :=
    match status_result with
    | .ok s => s.name
    | .error _ => id
  match start_result with
  | .ok _ =>
      { engineCalls := [.startStrategy id], warnLogs := 0
        broadcasts := [{ strategy_id := id, name := strategy_name,
                         running := true, event := "started" }]
        response := .ok { success := true, strategy_id := id,
                          action := "start",
                          message := "Strategy " ++ id ++ " started successfully" } }
  | .error e =>
      { engineCalls := [.startStrategy id], warnLogs := 0,
        broadcasts := [], response := .error (engine_error_to_response e) }

/-- Embedding of the `stop_strategy` handler. -/
def stop_strategy (id : String)
    (status_result : Except EngineError StrategyStatus)
    (stop_result : Except EngineError Unit) :
    HandlerOutcome StrategyActionResponse :=
  let strategy_name :=
    match status_result with
    | .ok s => s.name
    | .error _ => id
  match stop_result with
  | .ok _ =>
      { engineCalls := [.stopStrategy id], warnLogs := 0
        broadcasts := [{ strategy_id := id, name := strategy_name,
                         running := false, event := "stopped" }]
        response := .ok { success := true, strategy_id := id,
                          action := "stop",
                          message := "Strategy " ++ id ++ " stopped successfully" } }
  | .error e =>
      { engineCalls := [.stopStrategy id], warnLogs := 0,
        broadcasts := [], response := .error (engine_error_to_response e) }

/-- Embedding of the `update_config` handler: status lookup (falling back to
`(id, false)`), engine `update_strategy_config`, best-effort DB persistence
whose failure is only warned about, then the "config_updated" broadcast and
a success response. -/
def update_config (id : String)
    (status_result : Except EngineError StrategyStatus)
    (update_result : Except EngineError Unit) (db_pool : Bool)
    (db_update_result : Except String Unit) :
    HandlerOutcome StrategyActionResponse :=
  let p :=
    match status_result with
    | .ok s => (s.name, s.running)
    | .error _ => (id, false)
  match update_result with
  | .ok _ =>
      let warns :=
        if db_pool then
          match db_update_result with
          | .error _ => 1
          | .ok _ => 0
        else 0
      { engineCalls := [.updateStrategyConfig id]
        warnLogs := warns
        broadcasts := [{ strategy_id := id, name := p.1, running := p.2,
                         event := "config_updated" }]
        response := .ok { success := true, strategy_id := id,
                          action := "update_config",
                          message := "Strategy " ++ id ++ " configuration updated successfully" } }
  | .error e =>
      { engineCalls := [.updateStrategyConfig id], warnLogs := 0,
        broadcasts := [], response := .error (engine_error_to_response e) }

/-- Embedding of the `create_strategy` handler: instance construction, id
generation from the strategy type and a uuid fragment, DB insert (a failure
here aborts with 500 before the engine is touched), engine registration,
then the "created" broadcast. -/
def create_strategy (strategy_type : String) (req_name : Option String)
    (uuid8 : String) (db_pool : Bool) (db_create_result : Except String Unit)
    (register_result : Except EngineError Unit) :
    HandlerOutcome CreateStrategyResponse :=
  match create_strategy_instance strategy_type with
  | .error _ =>
      { engineCalls := [], warnLogs := 0, broadcasts := [],
        response := .error (400, "INVALID_STRATEGY_TYPE") }
  | .ok _ =>
      let strategy_id := strategy_type ++ "_" ++ uuid8
      let display_name := req_name.getD (get_strategy_default_name strategy_type)
      let after_db : HandlerOutcome CreateStrategyResponse :=
        match register_result with
        | .error e =>
            { engineCalls := [.registerStrategy strategy_id], warnLogs := 0,
              broadcasts := [],
              response := .error (engine_error_to_response e) }
        | .ok _ =>
            { engineCalls := [.registerStrategy strategy_id], warnLogs := 0
              broadcasts := [{ strategy_id := strategy_id,
                               name := display_name, running := false,
                               event := "created" }]
              response := .ok { success := true, strategy_id := strategy_id,
                                name := display_name,
                                message := "Strategy " ++ strategy_id ++ " created successfully" } }
      if db_pool then
        match db_create_result with
        | .error _ =>
            { engineCalls := [], warnLogs := 0, broadcasts := [],
              response := .error (500, "DB_ERROR") }
        | .ok _ => after_db
      else after_db

/-- Embedding of the `update_risk_settings` handler: requires a DB pool, DB
update (failure aborts with 500), status lookup for the broadcast, then the
"risk_updated" broadcast and a success response. The handler issues no
engine mutation. -/
def update_risk_settings (id : String) (db_pool : Bool)
    (db_update_result : Except String Unit)
    (status_result : Except EngineError StrategyStatus) :
    HandlerOutcome StrategyActionResponse :=
  if db_pool then
    match db_update_result with
    | .error _ =>
        { engineCalls := [], warnLogs := 0, broadcasts := [],
          response := .error (500, "DB_ERROR") }
    | .ok _ =>
        let p :=
          match status_result with
          | .ok s => (s.name, s.running)
          | .error _ => (id, false)
        { engineCalls := [], warnLogs := 0
          broadcasts := [{ strategy_id := id, name := p.1, running := p.2,
                           event := "risk_updated" }]
          response := .ok { success := true, strategy_id := id,
                            action := "update_risk",
                            message := "Strategy " ++ id ++ " risk settings updated successfully" } }
  else
    { engineCalls := [], warnLogs := 0, broadcasts := [],
      response := .error (500, "DB_NOT_CONNECTED") }

/-- The fields of the stored source strategy that `clone_strategy` reads for
control flow. -/
structure CloneSource where
  strategy_type : Option String
  deriving Repr, DecidableEq

/-- Embedding of the `clone_strategy` handler: requires a DB pool, source
lookup (DB error → 500, missing → 404), DB insert of the clone (failure →
500), best-effort engine registration whose result is discarded, then the
"cloned" broadcast and a success response. -/
def clone_strategy (source_id new_name uuid8 : String) (db_pool : Bool)
    (source_result : Except String (Option CloneSource))
    (db_create_result : Except String Unit)
    (_register_result : Except EngineError Unit) :
    HandlerOutcome CloneStrategyResponse :=
  if db_pool then
    match source_result with
    | .error _ =>
        { engineCalls := [], warnLogs := 0, broadcasts := [],
          response := .error (500, "DB_ERROR") }
    | .ok none =>
        { engineCalls := [], warnLogs := 0, broadcasts := [],
          response := .error (404, "STRATEGY_NOT_FOUND") }
    | .ok (some source) =>
        let strategy_type := source.strategy_type.getD "unknown"
        let new_id := strategy_type ++ "_" ++ uuid8
        match db_create_result with
        | .error _ =>
            { engineCalls := [], warnLogs := 0, broadcasts := [],
              response := .error (500, "DB_ERROR") }
        | .ok _ =>
            let calls :=
              if (create_strategy_instance strategy_type).isOk then
                [EngineOp.registerStrategy new_id]
              else []
            { engineCalls := calls, warnLogs := 0
              broadcasts := [{ strategy_id := new_id, name := new_name,
                               running := false, event := "cloned" }]
              response := .ok { success := true, source_id := source_id,
                                new_id := new_id, new_name := new_name,
                                message := "Strategy " ++ source_id ++ " cloned to " ++ new_id ++ " successfully" } }
  else
    { engineCalls := [], warnLogs := 0, broadcasts := [],
      response := .error (500, "DB_NOT_CONNECTED") }

/-- The lifecycle event names the spec allows route handlers to emit. -/
def lifecycleEventNames : List String :=
  ["created", "started", "stopped", "config_updated", "risk_updated",
   "cloned", "deleted"]

/-! ## CLI strategy-test flow (src/crates/trader-cli/src/commands/strategy_test.rs)

`run_strategy_test` and `run_strategy_test_quiet` are straight-line
sequences of fallible calls with early returns. Each is embedded as the
trace of strategy/engine-facing steps it performs, as a function of which
external calls succeed. -/

/-- The strategy/engine-facing steps of the test flow, in the order the
source can perform them. -/
inductive TestStep where
  | createInstance
  | setContext
  | initStrategy
  | runBacktest
  deriving Repr, DecidableEq

/-- The external outcomes the test flow branches on, in program order. -/
structure TestFlowInputs where
  /-- `StrategyRegistry::list_ids()` contains the requested id. -/
  strategyKnown : Bool
  /-- DB connection and candle queries succeed (`?` propagation). -/
  dbOk : Bool
  /-- the loaded candle list is non-empty. -/
  klinesNonEmpty : Bool
  /-- `create_strategy_context` succeeds (`?` propagation). -/
  contextOk : Bool
  /-- `prepare_strategy_config` succeeds (`?` propagation). -/
  configOk : Bool
  /-- `StrategyRegistry::create_instance` succeeds. -/
  createOk : Bool
  /-- `strategy.initialize(config)` succeeds. -/
  initOk : Bool
  /-- the backtest engine run succeeds. -/
  backtestOk : Bool
  deriving Repr, DecidableEq

/-- Trace of `run_strategy_test` (the verbose path): validation, data
loading and context creation happen first; then the instance is created,
`set_context` is called, `initialize` is called, and only then
`run_with_context`. A failing call still appears in the trace (the call was
made) but aborts the rest. -/
def run_strategy_test_steps (i : TestFlowInputs) : List TestStep :=
  if ¬ i.strategyKnown then []
  else if ¬ i.dbOk then []
  else if ¬ i.klinesNonEmpty then []
  else if ¬ i.contextOk then []
  else if ¬ i.configOk then []
  else if ¬ i.createOk then [.createInstance]
  else if ¬ i.initOk then [.createInstance, .setContext, .initStrategy]
  else if ¬ i.backtestOk then
    [.createInstance, .setContext, .initStrategy, .runBacktest]
  else [.createInstance, .setContext, .initStrategy, .runBacktest]

/-- Trace of `run_strategy_test_quiet` (the regression path): same step
order as the verbose path, differing only in logging and error returns. -/
def run_strategy_test_quiet_steps (i : TestFlowInputs) : List TestStep :=
  if ¬ i.strategyKnown then []
  else if ¬ i.dbOk then []
  else if ¬ i.klinesNonEmpty then []
  else if ¬ i.contextOk then []
  else if ¬ i.configOk then []
  else if ¬ i.createOk then [.createInstance]
  else if ¬ i.initOk then [.createInstance, .setContext, .initStrategy]
  else if ¬ i.backtestOk then
    [.createInstance, .setContext, .initStrategy, .runBacktest]
  else [.createInstance, .setContext, .initStrategy, .runBacktest]

/-! ## Backtest simulation (spec §4.5)

The `trader-analytics` backtest engine itself is not among the provided
sources (only its CLI callers are), so the simulation loop is modelled from
the spec. The strategy, fill simulation and position bookkeeping are
abstracted into a state type `σ` with a per-candle step function and an
equity valuation (cash + mark-to-market of open positions). -/

/-- Embedding of an OHLCV candle (spec §6). -/
structure Candle where
  open_time : ℕ
  open_price : ℚ
  high : ℚ
  low : ℚ
  close : ℚ
  volume : ℚ
  deriving Repr, DecidableEq

/-- Modelled from the spec: `EquityPoint` (§3) — timestamp, total equity,
drawdown percentage from the running peak. -/
structure EquityPoint where
  timestamp : ℕ
  equity : ℚ
  drawdown_pct : ℚ
  deriving Repr, DecidableEq

/-- Modelled from the spec: `BacktestConfig` (§3). -/
structure BacktestConfig where
  initial_capital : ℚ
  commission_rate : ℚ
  slippage_rate : ℚ
  allow_short : Bool
  deriving Repr, DecidableEq

/-- Modelled from the spec: backtest-specific errors (§7): `EmptyInput`,
`SimulationFailed`. -/
inductive BacktestError where
  | EmptyInput
  | SimulationFailed
  deriving Repr, DecidableEq

/-- Modelled from the spec: `BacktestReport` (§3), reduced to the equity
curve (the trade log and metrics block are not needed for the properties
verified here). -/
structure BacktestReport where
  equity_curve : List EquityPoint
  deriving Repr, DecidableEq

/-- Modelled from the spec: the per-candle loop of §4.5 step 3 — advance the
simulation state, compute total equity, and append an `EquityPoint` whose
drawdown is `(running peak − equity) / running peak × 100`, floored at 0,
with the running peak the maximum equity seen so far in the run. -/
def equityCurveLoop {σ : Type} (step : σ → Candle → σ) (equityOf : σ → ℚ) :
    σ → ℚ → List Candle → List EquityPoint
  | _, _, [] => []
  | s, peak, c :: rest =>
      let s' := step s c
      let e := equityOf s'
      let peak' := max peak e
      let dd := max 0 ((peak' - e) / peak' * 100)
      { timestamp := c.open_time, equity := e, drawdown_pct := dd } ::
        equityCurveLoop step equityOf s' peak' rest

/-- Modelled from the spec: a backtest run (§4.5) — reject an empty candle
sequence (`EmptyInput`), otherwise replay the candles in order starting from
`cash = initial_capital`, with the equity curve seeded at the first candle. -/
def runBacktest {σ : Type} (cfg : BacktestConfig) (step : σ → Candle → σ)
    (equityOf : σ → ℚ) (init : σ) (candles : List Candle) :
    Except BacktestError BacktestReport :=
  if candles.isEmpty then .error .EmptyInput
  else .ok { equity_curve := equityCurveLoop step equityOf init cfg.initial_capital candles }

/-! ## Regression-test validation (src/crates/trader-cli/src/commands/strategy_test.rs)

`validate_test_result_detailed` compares a test run against a fixture
baseline. Its `Decimal`/`f64` values are modelled as `ℚ` (the lossy
`Decimal → f64` conversions are modelled as exact), and the Korean error
messages are replaced by short ASCII markers — the properties verified
concern only which checks fire, never the message text. -/

/-- The fields of `TestResult` that `validate_test_result_detailed` reads.
`max_drawdown_pct` stands for `report.metrics.max_drawdown_pct`, present only
when the result carries a report. -/
structure TestResult where
  success : Bool
  trades_executed : ℕ
  total_return_pct : ℚ
  win_rate_pct : ℚ
  report_max_drawdown_pct : Option ℚ
  deriving Repr, DecidableEq

/-- Embedding of `ExpectedResult` (the fixture baseline). -/
structure ExpectedResult where
  initialization : String
  trades_executed : Option ℕ
  total_return_pct : Option ℚ
  max_drawdown_pct : Option ℚ
  win_rate_pct : Option ℚ
  min_trades : Option ℕ
  min_return_pct : Option ℚ
  tolerance : ℚ
  deriving Repr, DecidableEq

/-- Embedding of `validate_test_result_detailed`: collects validation errors
in source order and returns `(errors.is_empty(), errors)`. -/
def validate_test_result_detailed (result : TestResult) (expected : ExpectedResult) :
    Bool × List String :=
  let errors : List String :=
    (if expected.initialization = "failure" ∧ result.success then
      ["init succeeded but failure expected"] else []) ++
    (if expected.initialization = "success" ∧ ¬ result.success then
      ["init failed but success expected"] else []) ++
    (if result.trades_executed = 0 ∧ ¬ (expected.trades_executed = some 0) then
      ["zero trades - strategy generated no signals"] else []) ++
    (match expected.trades_executed with
     | some expected_trades =>
        if result.trades_executed ≠ expected_trades then
          ["trade count mismatch"] else []
     | none => []) ++
    (match expected.total_return_pct with
     | some expected_return =>
        if |result.total_return_pct - expected_return| > expected.tolerance then
          ["total return mismatch"] else []
     | none => []) ++
    (match expected.max_drawdown_pct with
     | some expected_dd =>
        match result.report_max_drawdown_pct with
        | some actual_dd =>
            if |actual_dd - expected_dd| > expected.tolerance then
              ["max drawdown mismatch"] else []
        | none => []
     | none => []) ++
    (match expected.win_rate_pct with
     | some expected_win_rate =>
        if |result.win_rate_pct - expected_win_rate| > expected.tolerance then
          ["win rate mismatch"] else []
     | none => []) ++
    (match expected.min_trades with
     | some min_trades =>
        if result.trades_executed < min_trades then
          ["below minimum trade count"] else []
     | none => []) ++
    (match expected.min_return_pct with
     | some min_return =>
        if result.total_return_pct < min_return then
          ["below minimum return"] else []
     | none => [])
  (errors.isEmpty, errors)

end ZeroQuant

namespace ZeroQuant

/-- C1: a disabled exit rule exposes no threshold: `stop_loss()` is
`Some(stop_loss_pct)` exactly when `stop_loss_enabled`, `take_profit()` is
`Some(take_profit_pct)` exactly when `take_profit_enabled`, and
`trailing_stop()` is `Some((trailing_trigger_pct, trailing_stop_pct))`
exactly when `trailing_stop_enabled`; otherwise each returns `None`. -/
theorem exit_config_accessors_iff_enabled (c : ExitConfig) :
    (c.stop_loss = some c.stop_loss_pct ↔ c.stop_loss_enabled = true) ∧
    (c.stop_loss = none ↔ c.stop_loss_enabled = false) ∧
    (c.take_profit = some c.take_profit_pct ↔ c.take_profit_enabled = true) ∧
    (c.take_profit = none ↔ c.take_profit_enabled = false) ∧
    (c.trailing_stop = some (c.trailing_trigger_pct, c.trailing_stop_pct) ↔
      c.trailing_stop_enabled = true) ∧
    (c.trailing_stop = none ↔ c.trailing_stop_enabled = false) := by
  unfold ExitConfig.stop_loss ExitConfig.take_profit ExitConfig.trailing_stop
  cases h1 : c.stop_loss_enabled <;> cases h2 : c.take_profit_enabled <;>
    cases h3 : c.trailing_stop_enabled <;> simp

/-- C3: the grid/averaging preset disables stop-loss, opposite-signal exit
and trailing stop, and enables only take-profit at 3%. -/
theorem for_grid_trading_disables_stop_loss :
    ExitConfig.for_grid_trading.stop_loss_enabled = false ∧
    ExitConfig.for_grid_trading.stop_loss = none ∧
    ExitConfig.for_grid_trading.exit_on_opposite_signal = false ∧
    ExitConfig.for_grid_trading.trailing_stop_enabled = false ∧
    ExitConfig.for_grid_trading.take_profit_enabled = true ∧
    ExitConfig.for_grid_trading.take_profit_pct = 3 := by
  refine ⟨rfl, ?_, rfl, rfl, rfl, rfl⟩
  rfl

/-- C4: `engine_error_to_response` assigns each of the seven error kinds a
distinct code string (so the kind is recoverable from the (status, code)
pair without string matching on the message), with `StrategyNotFound → 404`,
`StrategyAlreadyExists → 409`, `NotRunning`/`AlreadyRunning → 400`, and the
remaining kinds → 500. -/
theorem engine_error_to_response_injective_on_kind :
    (∀ e₁ e₂ : EngineError,
      (engine_error_to_response e₁).2 = (engine_error_to_response e₂).2 ↔
        e₁.kindTag = e₂.kindTag) ∧
    (∀ m, engine_error_to_response (.StrategyNotFound m) = (404, "STRATEGY_NOT_FOUND")) ∧
    (∀ m, engine_error_to_response (.StrategyAlreadyExists m) = (409, "STRATEGY_EXISTS")) ∧
    (∀ m, engine_error_to_response (.InitializationFailed m) = (500, "INIT_FAILED")) ∧
    (∀ m, engine_error_to_response (.NotRunning m) = (400, "NOT_RUNNING")) ∧
    (∀ m, engine_error_to_response (.AlreadyRunning m) = (400, "ALREADY_RUNNING")) ∧
    (∀ m, engine_error_to_response (.ChannelError m) = (500, "CHANNEL_ERROR")) ∧
    (∀ m, engine_error_to_response (.InternalError m) = (500, "INTERNAL_ERROR")) := by
  refine ⟨?_, fun _ => rfl, fun _ => rfl, fun _ => rfl, fun _ => rfl,
    fun _ => rfl, fun _ => rfl, fun _ => rfl⟩
  intro e₁ e₂
  cases e₁ <;> cases e₂ <;>
    simp [engine_error_to_response, EngineError.kindTag]

/-- C9: `ExitConfig::default()` coincides field-for-field with the
day-trading preset, with the documented default values. -/
theorem default_is_day_trading_preset :
    ExitConfig.default = ExitConfig.for_day_trading ∧
    ExitConfig.default.stop_loss_enabled = true ∧
    ExitConfig.default.stop_loss_pct = 2 ∧
    ExitConfig.default.take_profit_enabled = true ∧
    ExitConfig.default.take_profit_pct = 4 ∧
    ExitConfig.default.trailing_stop_enabled = false ∧
    ExitConfig.default.trailing_trigger_pct = 2 ∧
    ExitConfig.default.trailing_stop_pct = 1 ∧
    ExitConfig.default.exit_on_opposite_signal = true := by
  refine ⟨rfl, rfl, rfl, rfl, rfl, rfl, rfl, rfl, rfl⟩

/-- Outside the handled set, `create_strategy_instance` falls through to the
catch-all `Err` arm. -/
theorem create_strategy_instance_unknown (s : String)
    (hs : s ∉ handledStrategyTypes) :
    create_strategy_instance s = .error ("Unknown strategy type: " ++ s) := by
  simp only [handledStrategyTypes, List.mem_cons, List.not_mem_nil, or_false,
    not_or] at hs
  obtain ⟨n1, n2, n3, n4, n5, n6, n7, n8, n9, n10, n11, n12, n13, n14, n15,
    n16, n17, n18, n19, n20, n21, n22, n23, n24, n25, n26, n27, n28, n29,
    n30, n31, n32, n33, n34, n35, n36, n37, n38, n39, n40, n41, n42, n43,
    n44⟩ := hs
  simp [create_strategy_instance, n1, n2, n3, n4, n5, n6, n7, n8, n9, n10,
    n11, n12, n13, n14, n15, n16, n17, n18, n19, n20, n21, n22, n23, n24,
    n25, n26, n27, n28, n29, n30, n31, n32, n33, n34, n35, n36, n37, n38,
    n39, n40, n41, n42, n43, n44]

/-- `create_strategy_instance` succeeds exactly on the handled set of
strategy-type strings. -/
theorem create_strategy_instance_isOk_iff (s : String) :
    (create_strategy_instance s).isOk = true ↔ s ∈ handledStrategyTypes := by
  constructor
  · intro hok
    by_contra hmem
    rw [create_strategy_instance_unknown s hmem] at hok
    simp [Except.isOk, Except.toBool] at hok
  · intro hmem
    simp only [handledStrategyTypes, List.mem_cons, List.not_mem_nil,
      or_false] at hmem
    rcases hmem with rfl|rfl|rfl|rfl|rfl|rfl|rfl|rfl|rfl|rfl|rfl|rfl|rfl|
      rfl|rfl|rfl|rfl|rfl|rfl|rfl|rfl|rfl|rfl|rfl|rfl|rfl|rfl|rfl|rfl|rfl|
      rfl|rfl|rfl|rfl|rfl|rfl|rfl|rfl|rfl|rfl|rfl|rfl|rfl|rfl
    all_goals rfl

/-- C7: every alias handled by `create_strategy_instance` resolves to the
same implementation type as its canonical id, lookup succeeds exactly on the
handled set of strings, and any other string yields
`Err("Unknown strategy type: ...")`. -/
theorem create_strategy_instance_aliases_and_unknown :
    (create_strategy_instance "rsi" = .ok .RsiStrategy ∧
      create_strategy_instance "rsi_mean_reversion" = .ok .RsiStrategy) ∧
    (create_strategy_instance "grid" = .ok .GridStrategy ∧
      create_strategy_instance "grid_trading" = .ok .GridStrategy) ∧
    (create_strategy_instance "bollinger" = .ok .BollingerStrategy ∧
      create_strategy_instance "bollinger_bands" = .ok .BollingerStrategy) ∧
    (create_strategy_instance "volatility_breakout" = .ok .VolatilityBreakoutStrategy ∧
      create_strategy_instance "volatility" = .ok .VolatilityBreakoutStrategy) ∧
    (create_strategy_instance "magic_split" = .ok .MagicSplitStrategy ∧
      create_strategy_instance "split" = .ok .MagicSplitStrategy) ∧
    (create_strategy_instance "sma" = .ok .SmaStrategy ∧
      create_strategy_instance "sma_crossover" = .ok .SmaStrategy ∧
      create_strategy_instance "ma_crossover" = .ok .SmaStrategy) ∧
    (create_strategy_instance "stock_rotation" = .ok .StockRotationStrategy ∧
      create_strategy_instance "rotation" = .ok .StockRotationStrategy) ∧
    (create_strategy_instance "all_weather" = .ok .AllWeatherStrategy ∧
      create_strategy_instance "all_weather_us" = .ok .AllWeatherStrategy ∧
      create_strategy_instance "all_weather_kr" = .ok .AllWeatherStrategy) ∧
    (create_strategy_instance "snow" = .ok .SnowStrategy ∧
      create_strategy_instance "snow_us" = .ok .SnowStrategy ∧
      create_strategy_instance "snow_kr" = .ok .SnowStrategy) ∧
    (create_strategy_instance "pension_bot" = .ok .PensionBotStrategy ∧
      create_strategy_instance "pension" = .ok .PensionBotStrategy) ∧
    (create_strategy_instance "sector_vb" = .ok .SectorVbStrategy ∧
      create_strategy_instance "sector_volatility" = .ok .SectorVbStrategy) ∧
    (create_strategy_instance "kospi_bothside" = .ok .KospiBothSideStrategy ∧
      create_strategy_instance "kospi_both" = .ok .KospiBothSideStrategy) ∧
    (create_strategy_instance "kosdaq_fire_rain" = .ok .KosdaqFireRainStrategy ∧
      create_strategy_instance "kosdaq_surge" = .ok .KosdaqFireRainStrategy) ∧
    (create_strategy_instance "us_3x_leverage" = .ok .Us3xLeverageStrategy ∧
      create_strategy_instance "us_leverage" = .ok .Us3xLeverageStrategy) ∧
    (create_strategy_instance "stock_gugan" = .ok .StockGuganStrategy ∧
      create_strategy_instance "gugan" = .ok .StockGuganStrategy) ∧
    (∀ s, (create_strategy_instance s).isOk = true ↔ s ∈ handledStrategyTypes) ∧
    (∀ s, s ∉ handledStrategyTypes →
      create_strategy_instance s = .error ("Unknown strategy type: " ++ s)) := by
  refine ⟨⟨rfl, rfl⟩, ⟨rfl, rfl⟩, ⟨rfl, rfl⟩, ⟨rfl, rfl⟩, ⟨rfl, rfl⟩,
    ⟨rfl, rfl, rfl⟩, ⟨rfl, rfl⟩, ⟨rfl, rfl, rfl⟩, ⟨rfl, rfl, rfl⟩,
    ⟨rfl, rfl⟩, ⟨rfl, rfl⟩, ⟨rfl, rfl⟩, ⟨rfl, rfl⟩, ⟨rfl, rfl⟩, ⟨rfl, rfl⟩,
    fun s => create_strategy_instance_isOk_iff s,
    fun s hs => create_strategy_instance_unknown s hs⟩

/-- C5: in `delete_strategy` and `update_config`, when the in-memory engine
mutation succeeds but the subsequent DB persistence call fails, the failure
is only logged as a warning, the engine mutation is not rolled back (the
handler issues exactly the one mutating engine call and nothing after it),
and the handler still responds with `success == true`. -/
theorem db_failure_after_engine_mutation_is_best_effort :
    (∀ (id : String) (sr : Except EngineError StrategyStatus) (msg : String),
      (delete_strategy id sr (.ok ()) true (.error msg)).warnLogs = 1 ∧
      (delete_strategy id sr (.ok ()) true (.error msg)).engineCalls =
        [.unregisterStrategy id] ∧
      ∃ r, (delete_strategy id sr (.ok ()) true (.error msg)).response = .ok r ∧
        r.success = true) ∧
    (∀ (id : String) (sr : Except EngineError StrategyStatus) (msg : String),
      (update_config id sr (.ok ()) true (.error msg)).warnLogs = 1 ∧
      (update_config id sr (.ok ()) true (.error msg)).engineCalls =
        [.updateStrategyConfig id] ∧
      ∃ r, (update_config id sr (.ok ()) true (.error msg)).response = .ok r ∧
        r.success = true) := by
  constructor <;> intro id sr msg <;> exact ⟨rfl, rfl, ⟨_, rfl, rfl⟩⟩

/-- C6: every lifecycle event broadcast by the strategy route handlers has
an event name from {created, started, stopped, config_updated, risk_updated,
cloned, deleted} and carries a strategy id, display name and running flag;
in particular a successful unregister emits "deleted" with `running = false`,
a successful start emits "started" with `running = true`, and a successful
stop emits "stopped" with `running = false`. -/
theorem lifecycle_events_well_formed :
    (∀ st rn u dp dcr rr b, b ∈ (create_strategy st rn u dp dcr rr).broadcasts →
      b.event ∈ lifecycleEventNames) ∧
    (∀ id sr ur dp dr b, b ∈ (delete_strategy id sr ur dp dr).broadcasts →
      b.event ∈ lifecycleEventNames) ∧
    (∀ id sr r b, b ∈ (start_strategy id sr r).broadcasts →
      b.event ∈ lifecycleEventNames) ∧
    (∀ id sr r b, b ∈ (stop_strategy id sr r).broadcasts →
      b.event ∈ lifecycleEventNames) ∧
    (∀ id sr ur dp dr b, b ∈ (update_config id sr ur dp dr).broadcasts →
      b.event ∈ lifecycleEventNames) ∧
    (∀ id dp dr sr b, b ∈ (update_risk_settings id dp dr sr).broadcasts →
      b.event ∈ lifecycleEventNames) ∧
    (∀ sid nn u dp so dc rr b, b ∈ (clone_strategy sid nn u dp so dc rr).broadcasts →
      b.event ∈ lifecycleEventNames) ∧
    (∀ id sr dp dr, ∃ nm, (delete_strategy id sr (.ok ()) dp dr).broadcasts =
      [{ strategy_id := id, name := nm, running := false, event := "deleted" }]) ∧
    (∀ id sr, ∃ nm, (start_strategy id sr (.ok ())).broadcasts =
      [{ strategy_id := id, name := nm, running := true, event := "started" }]) ∧
    (∀ id sr, ∃ nm, (stop_strategy id sr (.ok ())).broadcasts =
      [{ strategy_id := id, name := nm, running := false, event := "stopped" }]) := by
  refine ⟨?_, ?_, ?_, ?_, ?_, ?_, ?_, ?_, ?_, ?_⟩
  · intro st rn u dp dcr rr b hb
    cases h : create_strategy_instance st <;> cases dp <;> cases dcr <;>
      cases rr <;> simp_all [create_strategy, lifecycleEventNames]
  · intro id sr ur dp dr b hb
    cases ur <;> cases dp <;> cases dr <;>
      simp_all [delete_strategy, lifecycleEventNames]
  · intro id sr r b hb
    cases r <;> simp_all [start_strategy, lifecycleEventNames]
  · intro id sr r b hb
    cases r <;> simp_all [stop_strategy, lifecycleEventNames]
  · intro id sr ur dp dr b hb
    cases ur <;> cases dp <;> cases dr <;>
      simp_all [update_config, lifecycleEventNames]
  · intro id dp dr sr b hb
    cases dp <;> cases dr <;>
      simp_all [update_risk_settings, lifecycleEventNames]
  · intro sid nn u dp so dc rr b hb
    cases dp <;> rcases so with _ | ⟨_ | _⟩ <;> cases dc <;>
      simp_all [clone_strategy, lifecycleEventNames]
  · intro id sr dp dr
    exact ⟨_, rfl⟩
  · intro id sr
    exact ⟨_, rfl⟩
  · intro id sr
    exact ⟨_, rfl⟩

/-- C8: in both the verbose (`run_strategy_test`) and quiet
(`run_strategy_test_quiet`) test paths, whenever `initialize` is invoked,
`set_context` was invoked strictly before it, and the backtest run starts
only after both have completed. -/
theorem set_context_precedes_init (i : TestFlowInputs) :
    (TestStep.initStrategy ∈ run_strategy_test_steps i →
      TestStep.setContext ∈ run_strategy_test_steps i ∧
      (run_strategy_test_steps i).indexOf TestStep.setContext <
        (run_strategy_test_steps i).indexOf TestStep.initStrategy) ∧
    (TestStep.runBacktest ∈ run_strategy_test_steps i →
      TestStep.setContext ∈ run_strategy_test_steps i ∧
      TestStep.initStrategy ∈ run_strategy_test_steps i ∧
      (run_strategy_test_steps i).indexOf TestStep.initStrategy <
        (run_strategy_test_steps i).indexOf TestStep.runBacktest) ∧
    (TestStep.initStrategy ∈ run_strategy_test_quiet_steps i →
      TestStep.setContext ∈ run_strategy_test_quiet_steps i ∧
      (run_strategy_test_quiet_steps i).indexOf TestStep.setContext <
        (run_strategy_test_quiet_steps i).indexOf TestStep.initStrategy) ∧
    (TestStep.runBacktest ∈ run_strategy_test_quiet_steps i →
      TestStep.setContext ∈ run_strategy_test_quiet_steps i ∧
      TestStep.initStrategy ∈ run_strategy_test_quiet_steps i ∧
      (run_strategy_test_quiet_steps i).indexOf TestStep.initStrategy <
        (run_strategy_test_quiet_steps i).indexOf TestStep.runBacktest) := by
  obtain ⟨a, b, c, d, e, f, g, h⟩ := i
  cases a <;> cases b <;> cases c <;> cases d <;> cases e <;> cases f <;>
    cases g <;> cases h <;> decide

/-- C8 witness: on the all-successful path, `set_context` precedes
`initialize` in the recorded trace. -/
theorem set_context_precedes_init_witness :
    TestStep.setContext ∈
      run_strategy_test_steps ⟨true, true, true, true, true, true, true, true⟩ ∧
    (run_strategy_test_steps
        ⟨true, true, true, true, true, true, true, true⟩).indexOf
        TestStep.setContext <
      (run_strategy_test_steps
        ⟨true, true, true, true, true, true, true, true⟩).indexOf
        TestStep.initStrategy :=
  (set_context_precedes_init
    ⟨true, true, true, true, true, true, true, true⟩).1 (by decide)

/-- The equity curve has exactly one point per processed candle. -/
theorem equityCurveLoop_length {σ : Type} (step : σ → Candle → σ)
    (equityOf : σ → ℚ) (s : σ) (peak : ℚ) (candles : List Candle) :
    (equityCurveLoop step equityOf s peak candles).length = candles.length := by
  induction candles generalizing s peak with
  | nil => rfl
  | cons c rest ih => simp [equityCurveLoop, ih]

/-- Every drawdown produced by the loop is floored at 0. -/
theorem equityCurveLoop_drawdown_nonneg {σ : Type} (step : σ → Candle → σ)
    (equityOf : σ → ℚ) (s : σ) (peak : ℚ) (candles : List Candle) :
    ∀ pt ∈ equityCurveLoop step equityOf s peak candles,
      0 ≤ pt.drawdown_pct := by
  induction candles generalizing s peak with
  | nil => intro pt hpt; cases hpt
  | cons c rest ih =>
      intro pt hpt
      simp only [equityCurveLoop, List.mem_cons] at hpt
      rcases hpt with rfl | hpt
      · exact le_max_left _ _
      · exact ih _ _ _ hpt

/-- The running peak over the first `i+1` equity points, starting from the
initial capital. -/
def runningPeak (curve : List EquityPoint) (init : ℚ) (i : ℕ) : ℚ :=
  ((curve.take (i + 1)).map EquityPoint.equity).foldl max init

/-- The loop's accumulator at step `i` is the fold of `max` over the equity
values of the first `i+1` points: each drawdown is computed relative to the
maximum equity seen so far in the run. -/
theorem equityCurveLoop_drawdown_formula {σ : Type} (step : σ → Candle → σ)
    (equityOf : σ → ℚ) :
    ∀ (candles : List Candle) (s : σ) (peak : ℚ) (i : ℕ)
      (h : i < (equityCurveLoop step equityOf s peak candles).length),
      ((equityCurveLoop step equityOf s peak candles).get ⟨i, h⟩).drawdown_pct =
        max 0 ((runningPeak (equityCurveLoop step equityOf s peak candles) peak i -
            ((equityCurveLoop step equityOf s peak candles).get ⟨i, h⟩).equity) /
          runningPeak (equityCurveLoop step equityOf s peak candles) peak i * 100) := by
  intro candles
  induction candles with
  | nil => intro s peak i h; simp [equityCurveLoop] at h
  | cons c rest ih =>
      intro s peak i h
      cases i with
      | zero => simp [equityCurveLoop, runningPeak]
      | succ j =>
          have h' : j < (equityCurveLoop step equityOf (step s c)
              (max peak (equityOf (step s c))) rest).length := by
            have := h
            simp only [equityCurveLoop, List.length_cons] at this
            omega
          have := ih (step s c) (max peak (equityOf (step s c))) j h'
          simpa [equityCurveLoop, runningPeak, List.take_succ_cons,
            List.map_cons, List.foldl_cons] using this

/-- C2 (spec-modelled): a backtest run over a non-empty candle sequence
yields a report whose equity curve has exactly one `EquityPoint` per candle,
with every `drawdown_pct ≥ 0` and each drawdown computed relative to the
maximum equity seen so far in the same run (seeded with the initial
capital). -/
theorem backtest_equity_curve_shape {σ : Type} (cfg : BacktestConfig)
    (step : σ → Candle → σ) (equityOf : σ → ℚ) (init : σ)
    (candles : List Candle) (hne : candles ≠ []) :
    ∃ report, runBacktest cfg step equityOf init candles = .ok report ∧
      report.equity_curve.length = candles.length ∧
      (∀ pt ∈ report.equity_curve, 0 ≤ pt.drawdown_pct) ∧
      ∀ i (h : i < report.equity_curve.length),
        (report.equity_curve.get ⟨i, h⟩).drawdown_pct =
          max 0 ((runningPeak report.equity_curve cfg.initial_capital i -
              (report.equity_curve.get ⟨i, h⟩).equity) /
            runningPeak report.equity_curve cfg.initial_capital i * 100) := by
  refine ⟨⟨equityCurveLoop step equityOf init cfg.initial_capital candles⟩,
    ?_, ?_, ?_, ?_⟩
  · have hno : candles.isEmpty = false := by
      cases candles with
      | nil => exact absurd rfl hne
      | cons a l => rfl
    unfold runBacktest
    rw [hno]
    simp
  · exact equityCurveLoop_length step equityOf init cfg.initial_capital candles
  · exact equityCurveLoop_drawdown_nonneg step equityOf init
      cfg.initial_capital candles
  · intro i h
    exact equityCurveLoop_drawdown_formula step equityOf candles init
      cfg.initial_capital i h

/-- C2 witness: a one-candle run with a trivial strategy state. -/
theorem backtest_equity_curve_shape_witness :
    ∃ report, runBacktest (σ := Unit) ⟨100, 0, 0, false⟩ (fun s _ => s)
        (fun _ => 100) () [⟨0, 1, 1, 1, 1, 1⟩] = .ok report ∧
      report.equity_curve.length = ([⟨0, 1, 1, 1, 1, 1⟩] : List Candle).length ∧
      (∀ pt ∈ report.equity_curve, 0 ≤ pt.drawdown_pct) ∧
      ∀ i (h : i < report.equity_curve.length),
        (report.equity_curve.get ⟨i, h⟩).drawdown_pct =
          max 0 ((runningPeak report.equity_curve (100 : ℚ) i -
              (report.equity_curve.get ⟨i, h⟩).equity) /
            runningPeak report.equity_curve (100 : ℚ) i * 100) :=
  backtest_equity_curve_shape ⟨100, 0, 0, false⟩ (fun s _ => s) (fun _ => 100)
    () [⟨0, 1, 1, 1, 1, 1⟩] (List.cons_ne_nil _ _)

/-- C10: a zero-trade run fails regression validation unless the baseline
explicitly expects zero trades: when `trades_executed = 0` and the expected
baseline is not `Some(0)`, `validate_test_result_detailed` returns `false`
together with a non-empty error list. -/
theorem zero_trades_fail_validation (result : TestResult)
    (expected : ExpectedResult) (h0 : result.trades_executed = 0)
    (hexp : expected.trades_executed ≠ some 0) :
    (validate_test_result_detailed result expected).1 = false ∧
    (validate_test_result_detailed result expected).2 ≠ [] := by
  have hmem : "zero trades - strategy generated no signals" ∈
      (validate_test_result_detailed result expected).2 := by
    simp [validate_test_result_detailed, h0, hexp]
  have hne : (validate_test_result_detailed result expected).2 ≠ [] := by
    intro hnil
    rw [hnil] at hmem
    exact (List.not_mem_nil _) hmem
  refine ⟨?_, hne⟩
  have hfst : (validate_test_result_detailed result expected).1 =
      (validate_test_result_detailed result expected).2.isEmpty := rfl
  rw [hfst]
  rcases hsnd : (validate_test_result_detailed result expected).2 with _ | ⟨a, l⟩
  · exact absurd hsnd hne
  · rfl

/-- C10 witness: a run with zero trades against a baseline expecting
trades fails validation. -/
theorem zero_trades_fail_validation_witness :
    (validate_test_result_detailed
        { success := true, trades_executed := 0, total_return_pct := 0,
          win_rate_pct := 0, report_max_drawdown_pct := none }
        { initialization := "success", trades_executed := none,
          total_return_pct := none, max_drawdown_pct := none,
          win_rate_pct := none, min_trades := none, min_return_pct := none,
          tolerance := 1 }).1 = false ∧
    (validate_test_result_detailed
        { success := true, trades_executed := 0, total_return_pct := 0,
          win_rate_pct := 0, report_max_drawdown_pct := none }
        { initialization := "success", trades_executed := none,
          total_return_pct := none, max_drawdown_pct := none,
          win_rate_pct := none, min_trades := none, min_return_pct := none,
          tolerance := 1 }).2 ≠ [] :=
  zero_trades_fail_validation _ _ rfl (by decide)

/-- C1 witness: the accessor equivalences evaluated at the leverage preset. -/
theorem exit_config_accessors_witness :
    (ExitConfig.for_leverage.stop_loss = some ExitConfig.for_leverage.stop_loss_pct ↔
      ExitConfig.for_leverage.stop_loss_enabled = true) ∧
    (ExitConfig.for_leverage.stop_loss = none ↔
      ExitConfig.for_leverage.stop_loss_enabled = false) ∧
    (ExitConfig.for_leverage.take_profit = some ExitConfig.for_leverage.take_profit_pct ↔
      ExitConfig.for_leverage.take_profit_enabled = true) ∧
    (ExitConfig.for_leverage.take_profit = none ↔
      ExitConfig.for_leverage.take_profit_enabled = false) ∧
    (ExitConfig.for_leverage.trailing_stop =
        some (ExitConfig.for_leverage.trailing_trigger_pct,
          ExitConfig.for_leverage.trailing_stop_pct) ↔
      ExitConfig.for_leverage.trailing_stop_enabled = true) ∧
    (ExitConfig.for_leverage.trailing_stop = none ↔
      ExitConfig.for_leverage.trailing_stop_enabled = false) :=
  exit_config_accessors_iff_enabled ExitConfig.for_leverage

/-- C4 witness: two concrete errors of different kinds have distinct codes. -/
theorem engine_error_response_witness :
    (engine_error_to_response (.StrategyNotFound "x")).2 =
        (engine_error_to_response (.StrategyAlreadyExists "y")).2 ↔
      (EngineError.StrategyNotFound "x").kindTag =
        (EngineError.StrategyAlreadyExists "y").kindTag :=
  engine_error_to_response_injective_on_kind.1 _ _

/-- C5 witness: a concrete delete whose DB persistence fails still responds
with success, logs one warning, and issues only the unregister call. -/
theorem db_failure_after_engine_mutation_witness :
    (delete_strategy "s1" (.ok ⟨"n", true⟩) (.ok ()) true (.error "db down")).warnLogs = 1 ∧
    (delete_strategy "s1" (.ok ⟨"n", true⟩) (.ok ()) true (.error "db down")).engineCalls =
      [.unregisterStrategy "s1"] ∧
    ∃ r, (delete_strategy "s1" (.ok ⟨"n", true⟩) (.ok ()) true
        (.error "db down")).response = .ok r ∧ r.success = true :=
  db_failure_after_engine_mutation_is_best_effort.1 "s1" (.ok ⟨"n", true⟩) "db down"

/-- C6 witness: a concrete successful unregister emits "deleted" with
`running = false`. -/
theorem lifecycle_events_well_formed_witness :
    ∃ nm, (delete_strategy "s1" (.ok ⟨"nm", true⟩) (.ok ()) true (.ok ())).broadcasts =
      [{ strategy_id := "s1", name := nm, running := false, event := "deleted" }] :=
  lifecycle_events_well_formed.2.2.2.2.2.2.2.1 "s1" (.ok ⟨"nm", true⟩) true (.ok ())

/-- C7 witness: an unhandled strategy type yields the unknown-type error. -/
theorem create_strategy_instance_unknown_witness :
    create_strategy_instance "quantum_leap" =
      .error ("Unknown strategy type: " ++ "quantum_leap") :=
  create_strategy_instance_aliases_and_unknown.2.2.2.2.2.2.2.2.2.2.2.2.2.2.2.2
    "quantum_leap" (by decide)

end ZeroQuant
